import Mathlib

/-!
Shallow embedding of the Console_Task_Manager process data layer
(`src/process_manager.py`, `src/config.py`, `src/models.py`) and proofs
about its caching, refresh, query and kill behaviour.

Modelling conventions:
* Python floats (CPU percentages, megabytes, timestamps) are modelled as `ℚ`.
* Python dicts (which preserve insertion order) are modelled as association
  lists `List (Nat × α)` with first-match lookup, update-in-place insert and
  order-preserving erase.
* `time.time()` is modelled by an explicit `now : ℚ` argument; the few calls
  that read the clock more than once within one pass all receive the same
  `now` (the claims settled here do not depend on sub-call clock drift).
* The OS (psutil) is modelled by explicit inputs: a full enumeration is a
  `List FullEntry`, a per-PID sample is a function
  `Nat → Except SampleErr (ℚ × ℚ)` returning raw cpu percent and RSS bytes.
* Python aliasing between the cache's record objects and the memoized sorted
  list is not modelled; none of the properties below depend on it.
-/

/-- First-match lookup in an association list (Python `d[k]` / `d.get(k)`). -/
def alookup {α : Type} (k : Nat) : List (Nat × α) → Option α
  | [] => none
  | kv :: rest => if kv.1 = k then some kv.2 else alookup k rest

/-- Insertion-order-preserving insert (Python `d[k] = v`): update in place if
the key is present, else append. -/
def ainsert {α : Type} (k : Nat) (v : α) : List (Nat × α) → List (Nat × α)
  | [] => [(k, v)]
  | kv :: rest => if kv.1 = k then (k, v) :: rest else kv :: ainsert k v rest

/-- Order-preserving erase (Python `del d[k]`; a dict never holds duplicate
keys, so dropping every pair with key `k` is the same operation). -/
def aerase {α : Type} (k : Nat) (l : List (Nat × α)) : List (Nat × α) :=
  l.filter (fun kv => kv.1 ≠ k)

/-- Update the value at a key in place, leaving the rest untouched
(Python mutation of a dict value object). -/
def amodify {α : Type} (k : Nat) (f : α → α) : List (Nat × α) → List (Nat × α)
  | [] => []
  | kv :: rest => (if kv.1 = k then (kv.1, f kv.2) else kv) :: amodify k f rest

/-- `starts_with n h` : `n` is a prefix of `h` (on character lists). -/
def starts_with : List Char → List Char → Bool
  | [], _ => true
  | _ :: _, [] => false
  | a :: as, b :: bs => a == b && starts_with as bs

/-- Substring test on character lists (Python `needle in hay`). -/
def list_has_sub (needle : List Char) : List Char → Bool
  | [] => needle.isEmpty
  | c :: cs => starts_with needle (c :: cs) || list_has_sub needle cs

/-- Python `needle in hay` on strings. -/
def str_contains (hay needle : String) : Bool :=
  list_has_sub needle.data hay.data

/-- Python `str.lower()` (ASCII case folding suffices for the names and
queries considered here). -/
def py_lower (s : String) : String :=
  String.mk (s.data.map Char.toLower)

/-- Python `str.strip()`: drop leading and trailing whitespace. -/
def py_strip (s : String) : String :=
  String.mk
    (((s.data.dropWhile Char.isWhitespace).reverse.dropWhile
        Char.isWhitespace).reverse)

/-- `src/config.py`: the configuration constants that matter to the process
layer, as a record so that theorems can quantify over their values.  Field
names follow `config.py`. -/
structure Config where
  FULL_UPDATE_INTERVAL : ℚ
  PARTIAL_UPDATE_INTERVAL : ℚ
  NORMALIZE_CPU_PERCENT : Bool
  FILTER_SYSTEM_IDLE : Bool
  SIGNIFICANT_CPU_CHANGE : ℚ
  SIGNIFICANT_MEMORY_CHANGE : ℚ
  NEW_PROCESS_HIGHLIGHT_DURATION : ℚ
deriving DecidableEq, Repr

/-- The values assigned in `src/config.py`. -/
def config_actual : Config :=
  { FULL_UPDATE_INTERVAL := 3
    PARTIAL_UPDATE_INTERVAL := 1
    NORMALIZE_CPU_PERCENT := true
    FILTER_SYSTEM_IDLE := true
    SIGNIFICANT_CPU_CHANGE := 10
    SIGNIFICANT_MEMORY_CHANGE := 50
    NEW_PROCESS_HIGHLIGHT_DURATION := 5 }

/-- `src/models.py` `ProcessInfo` dataclass. -/
structure ProcessInfo where
  pid : Nat
  name : String
  cpu_percent : ℚ
  memory_mb : ℚ
  exe_path : Option String := none
  status : Option String := none
  is_new : Bool := false
  cpu_trend : String := ""
  memory_trend : String := ""
  previous_cpu : Option ℚ := none
  previous_memory : Option ℚ := none
deriving DecidableEq, Repr

/-- The trend-indicator computation repeated at `process_manager.py` lines
67-78, 262-272, 291-295, 311-315: an indicator is shown iff the absolute
change reaches the threshold, its direction given by the sign. -/
def trend_symbol (diff threshold : ℚ) : String :=
  if |diff| ≥ threshold then (if diff > 0 then "▲" else "▼") else ""

/-- `ProcessManager._calculate_trends` (`process_manager.py` lines 55-78),
as a pure record update. -/
def calculate_trends (cfg : Config) (p : ProcessInfo) : Option ProcessInfo → ProcessInfo
  | none => { p with cpu_trend := "", memory_trend := "" }
  | some old =>
      { p with
        previous_cpu := some old.cpu_percent
        previous_memory := some old.memory_mb
        cpu_trend := trend_symbol (p.cpu_percent - old.cpu_percent) cfg.SIGNIFICANT_CPU_CHANGE
        memory_trend := trend_symbol (p.memory_mb - old.memory_mb) cfg.SIGNIFICANT_MEMORY_CHANGE }

/-- The mutable state of a `ProcessManager` instance
(`process_manager.py` lines 20-33). -/
structure PMState where
  processes_cache : List (Nat × ProcessInfo)
  process_birth_times : List (Nat × ℚ)
  last_full_update : ℚ
  last_partial_update : ℚ
  update_interval : ℚ
  partial_interval : ℚ
  last_sort_key : Option String
  last_sort_reverse : Bool
  cached_sorted_list : List ProcessInfo
  visible_pids : List Nat
  cpu_count : Nat
deriving DecidableEq, Repr

/-- `ProcessManager.__init__` (`process_manager.py` lines 20-36); the
side-effect-only CPU-baseline warmup loop has no state of its own and is
omitted.  Note the hard-coded `2.0` / `0.3` second intervals. -/
def pm_init (cpu_count : Nat) : PMState :=
  { processes_cache := []
    process_birth_times := []
    last_full_update := 0
    last_partial_update := 0
    update_interval := 2
    partial_interval := 3/10
    last_sort_key := some "cpu"
    last_sort_reverse := true
    cached_sorted_list := []
    visible_pids := []
    cpu_count := cpu_count }

/-- `ProcessManager._normalize_cpu` (`process_manager.py` lines 38-43). -/
def normalize_cpu (cfg : Config) (cpu_count : Nat) (cpu : ℚ) : ℚ :=
  if cfg.NORMALIZE_CPU_PERCENT && decide (cpu_count > 0) then cpu / cpu_count else cpu

/-- Insert `x` before the first element `y` with `le x y`.  Together with
`stable_sort` below this is the classic stable insertion sort. -/
def ordered_insert {α : Type} (le : α → α → Bool) (x : α) : List α → List α
  | [] => [x]
  | y :: ys => if le x y then x :: y :: ys else y :: ordered_insert le x ys

/-- Python's `list.sort` is a stable sort; for a total preorder `le` every
stable sort returns the same list, so Python's sort (with `reverse` folded
into `le`) is modelled by stable insertion sort. -/
def stable_sort {α : Type} (le : α → α → Bool) : List α → List α
  | [] => []
  | x :: xs => ordered_insert le x (stable_sort le xs)

/-- The comparison used by `get_processes`' `sort_key_map`
(`process_manager.py` lines 134-142): sort ascending by the chosen key, with
`reverse=True` reversing each comparison (Python sort semantics). -/
def sort_le (sort_by : String) (reverse : Bool) (p q : ProcessInfo) : Bool :=
  let fwd : Bool :=
    if sort_by = "cpu" then decide (p.cpu_percent ≤ q.cpu_percent)
    else if sort_by = "memory" then decide (p.memory_mb ≤ q.memory_mb)
    else if sort_by = "pid" then decide (p.pid ≤ q.pid)
    else decide (py_lower p.name ≤ py_lower q.name)
  let bwd : Bool :=
    if sort_by = "cpu" then decide (q.cpu_percent ≤ p.cpu_percent)
    else if sort_by = "memory" then decide (q.memory_mb ≤ p.memory_mb)
    else if sort_by = "pid" then decide (q.pid ≤ p.pid)
    else decide (py_lower q.name ≤ py_lower p.name)
  if reverse then bwd else fwd

/-- `sort_by in sort_key_map` (`process_manager.py` line 141). -/
def known_sort_key (sort_by : String) : Bool :=
  sort_by = "cpu" || sort_by = "memory" || sort_by = "pid" || sort_by = "name"

/-- Errors psutil sampling can raise
(`NoSuchProcess`, `AccessDenied`, `ZombieProcess`). -/
inductive SampleErr where
  | noSuchProcess
  | accessDenied
  | zombieProcess
deriving DecidableEq, Repr

/-- One row of `psutil.process_iter(attrs=...)` during a full update
(`process_manager.py` lines 178-206), together with whether the per-process
CPU calls raise:
* `cpu_call_fails`: the first `proc.cpu_percent(interval=0.0)` call (line 196
  for tracked PIDs, line 199 for new PIDs) raises — caught by the outer
  handler at line 224, so the entry is skipped.
* `second_cpu_fails`: for a new PID, the `proc.cpu_percent(interval=0.01)`
  call at line 201 raises; `NoSuchProcess`/`AccessDenied` are caught at line
  202 giving `cpu = 0.0`, while `ZombieProcess` escapes to the outer handler
  and skips the entry. -/
structure FullEntry where
  pid : Nat
  name : String
  mem_info : Option ℚ
  status : String
  cpu_raw : ℚ
  cpu_call_fails : Option SampleErr := none
  second_cpu_fails : Option SampleErr := none
deriving DecidableEq, Repr

/-- Build the `ProcessInfo` constructed at `process_manager.py` lines 211-217
(`name or 'N/A'`, RSS bytes converted to MB, missing `memory_info` giving
`0.0`). -/
def mk_full_info (e : FullEntry) (cpu : ℚ) : ProcessInfo :=
  { pid := e.pid
    name := if e.name = "" then "N/A" else e.name
    cpu_percent := cpu
    memory_mb := match e.mem_info with
      | some rss => rss / (1024 * 1024)
      | none => 0
    status := some e.status }

/-- The body of the `process_iter` loop of `_full_update_optimized`
(`process_manager.py` lines 178-225), one entry at a time; the accumulator is
`(new_cache, birth_times)`, and `old_cache` is the manager's cache as it was
when the pass started (it is only replaced wholesale at line 233). -/
def full_update_step (cfg : Config) (cpu_count : Nat) (now : ℚ)
    (old_cache : List (Nat × ProcessInfo))
    (acc : List (Nat × ProcessInfo) × List (Nat × ℚ)) (e : FullEntry) :
    List (Nat × ProcessInfo) × List (Nat × ℚ) :=
  if cfg.FILTER_SYSTEM_IDLE && decide (e.pid = 0) then acc
  else
    match alookup e.pid old_cache with
    | some old =>
        match e.cpu_call_fails with
        | some _ => acc
        | none =>
            let info := mk_full_info e (normalize_cpu cfg cpu_count e.cpu_raw)
            (ainsert e.pid (calculate_trends cfg info (some old)) acc.1, acc.2)
    | none =>
        match e.cpu_call_fails with
        | some _ => acc
        | none =>
            match e.second_cpu_fails with
            | some SampleErr.zombieProcess => acc
            | some _ =>
                let info := mk_full_info e 0
                (ainsert e.pid (calculate_trends cfg info none) acc.1,
                 ainsert e.pid now acc.2)
            | none =>
                let info := mk_full_info e (normalize_cpu cfg cpu_count e.cpu_raw)
                (ainsert e.pid (calculate_trends cfg info none) acc.1,
                 ainsert e.pid now acc.2)

/-- `ProcessManager._full_update_optimized` (`process_manager.py` lines
169-233): rebuild the cache from the enumeration, stamp a birth time for
every PID not in the old cache, then prune birth times whose PID is absent
from the new cache (lines 227-231). -/
def full_update_optimized (cfg : Config) (entries : List FullEntry) (now : ℚ)
    (s : PMState) : PMState :=
  let r := entries.foldl (full_update_step cfg s.cpu_count now s.processes_cache)
      ([], s.process_birth_times)
  { s with
    processes_cache := r.1
    process_birth_times := r.2.filter (fun kv => (alookup kv.1 r.1).isSome) }

/-- Per-PID sampling during a partial update: raw cpu percent and RSS bytes
on success; any of `psutil.Process(pid)`, `cpu_percent`, `memory_info`
raising is collapsed into a single error (observationally equivalent, since
a failed PID is only ever queued for removal). -/
def SampleFn : Type := Nat → Except SampleErr (ℚ × ℚ)

/-- The cpu+memory refresh applied to a visible cache entry
(`process_manager.py` lines 254-272). -/
def vis_refresh (cfg : Config) (cpu_count : Nat) (cpu_raw rss : ℚ)
    (p : ProcessInfo) : ProcessInfo :=
  let new_cpu := normalize_cpu cfg cpu_count cpu_raw
  let new_mem := rss / (1024 * 1024)
  { p with
    cpu_percent := new_cpu
    memory_mb := new_mem
    cpu_trend := trend_symbol (new_cpu - p.cpu_percent) cfg.SIGNIFICANT_CPU_CHANGE
    memory_trend := trend_symbol (new_mem - p.memory_mb) cfg.SIGNIFICANT_MEMORY_CHANGE }

/-- The cpu-only refresh applied to a non-visible cache entry
(`process_manager.py` lines 284-295 and 306-315). -/
def cpu_refresh (cfg : Config) (cpu_count : Nat) (cpu_raw : ℚ)
    (p : ProcessInfo) : ProcessInfo :=
  let new_cpu := normalize_cpu cfg cpu_count cpu_raw
  { p with
    cpu_percent := new_cpu
    cpu_trend := trend_symbol (new_cpu - p.cpu_percent) cfg.SIGNIFICANT_CPU_CHANGE }

/-- Loop body for the visible-PID pass of `_partial_update_optimized`
(`process_manager.py` lines 242-275); the accumulator is
`(cache, pids_to_remove)` — removals are only collected here and applied
after all passes finish. -/
def vis_step (cfg : Config) (cpu_count : Nat) (sample : SampleFn)
    (acc : List (Nat × ProcessInfo) × List Nat) (pid : Nat) :
    List (Nat × ProcessInfo) × List Nat :=
  if (alookup pid acc.1).isNone then acc
  else if cfg.FILTER_SYSTEM_IDLE && decide (pid = 0) then acc
  else
    match sample pid with
    | Except.ok (cpu_raw, rss) =>
        (amodify pid (vis_refresh cfg cpu_count cpu_raw rss) acc.1, acc.2)
    | Except.error _ => (acc.1, acc.2 ++ [pid])

/-- Loop body for the cpu-only passes of `_partial_update_optimized`
(`process_manager.py` lines 279-298 and 301-318). -/
def cpu_step (cfg : Config) (cpu_count : Nat) (sample : SampleFn)
    (acc : List (Nat × ProcessInfo) × List Nat) (pid : Nat) :
    List (Nat × ProcessInfo) × List Nat :=
  if cfg.FILTER_SYSTEM_IDLE && decide (pid = 0) then acc
  else
    match sample pid with
    | Except.ok (cpu_raw, _) =>
        (amodify pid (cpu_refresh cfg cpu_count cpu_raw) acc.1, acc.2)
    | Except.error _ => (acc.1, acc.2 ++ [pid])

/-- The deferred-removal block of `_partial_update_optimized`
(`process_manager.py` lines 320-326): each queued PID is deleted from the
cache, the birth-time table and the visible set. -/
def apply_removals (pids : List Nat) (s : PMState) : PMState :=
  pids.foldl
    (fun st pid =>
      { st with
        processes_cache := aerase pid st.processes_cache
        process_birth_times := aerase pid st.process_birth_times
        visible_pids := st.visible_pids.filter (fun q => q ≠ pid) })
    s

/-- `ProcessManager._partial_update_optimized` (`process_manager.py` lines
235-326).  With a non-empty visible set: refresh visible PIDs (cpu+memory),
then the remaining cached PIDs (cpu only); otherwise refresh every cached
PID (cpu only).  PIDs whose sample failed are removed at the end. -/
def partial_update_optimized (cfg : Config) (sample : SampleFn) (s : PMState) :
    PMState :=
  let r :=
    if s.visible_pids ≠ [] then
      let r1 := s.visible_pids.foldl (vis_step cfg s.cpu_count sample)
          (s.processes_cache, [])
      let non_visible := (r1.1.map (fun kv => kv.1)).filter
          (fun pid => !s.visible_pids.contains pid)
      non_visible.foldl (cpu_step cfg s.cpu_count sample) r1
    else
      (s.processes_cache.map (fun kv => kv.1)).foldl
        (cpu_step cfg s.cpu_count sample) (s.processes_cache, [])
  apply_removals r.2 { s with processes_cache := r.1 }

/-- The `is_new` recomputation of `get_processes`
(`process_manager.py` lines 124-131). -/
def is_new_flag (cfg : Config) (now : ℚ) (births : List (Nat × ℚ)) (pid : Nat) :
    Bool :=
  match alookup pid births with
  | some b => decide (now - b < cfg.NEW_PROCESS_HIGHLIGHT_DURATION)
  | none => false

/-- Apply `is_new_flag` to one record (`proc.is_new = ...`). -/
def set_is_new (cfg : Config) (now : ℚ) (births : List (Nat × ℚ))
    (p : ProcessInfo) : ProcessInfo :=
  { p with is_new := is_new_flag cfg now births p.pid }

/-- The search filter of `get_processes` (`process_manager.py` lines 117-122
and 150-155): case-insensitive substring match after stripping the query. -/
def search_pred (search_query : String) (p : ProcessInfo) : Bool :=
  str_contains (py_lower p.name) (py_strip (py_lower search_query))

/-- The visible-PID bookkeeping at the end of `get_processes`
(`process_manager.py` lines 159-165): slice the cached view from
`max 0 (start-10)` to `min len (end+10)` and record those PIDs. -/
def update_visible (visible_range : Option (Nat × Nat)) (s : PMState) : PMState :=
  match visible_range with
  | none => s
  | some (start_idx, end_idx) =>
      if s.cached_sorted_list = [] then s
      else
        let buffer_start := start_idx - 10
        let buffer_end := min s.cached_sorted_list.length (end_idx + 10)
        { s with
          visible_pids :=
            ((s.cached_sorted_list.drop buffer_start).take
              (buffer_end - buffer_start)).map (fun p => p.pid) }

/-- The view rebuild of `get_processes` (`process_manager.py` lines 113-145):
cache values in iteration order, search-filtered, `is_new` recomputed, then
sorted iff the key is one of `cpu`/`memory`/`pid`/`name`. -/
def build_view (cfg : Config) (sort_by : String) (reverse : Bool)
    (search_query : String) (now : ℚ) (s : PMState) : List ProcessInfo :=
  let processes := s.processes_cache.map (fun kv => kv.2)
  let processes :=
    if py_strip search_query ≠ "" then processes.filter (search_pred search_query)
    else processes
  let processes := processes.map (set_is_new cfg now s.process_birth_times)
  if known_sort_key sort_by then stable_sort (sort_le sort_by reverse) processes
  else processes

/-- The OS as seen by one `get_processes` call: the enumeration a full
update would see and the per-PID sampler a partial update would use. -/
structure OsEnv where
  full_entries : List FullEntry
  sample : SampleFn

/-- `ProcessManager.get_processes` (`process_manager.py` lines 80-167),
returning the list handed to the caller together with the manager's state
after the call. -/
def get_processes (cfg : Config) (env : OsEnv) (sort_by : String)
    (reverse : Bool) (visible_range : Option (Nat × Nat))
    (search_query : String) (now : ℚ) (s : PMState) :
    List ProcessInfo × PMState :=
  let refreshed :=
    if decide (now - s.last_full_update ≥ s.update_interval) then
      let s1 := full_update_optimized cfg env.full_entries now s
      ({ s1 with last_full_update := now, last_partial_update := now }, true)
    else if decide (now - s.last_partial_update ≥ s.partial_interval) then
      let s1 := partial_update_optimized cfg env.sample s
      ({ s1 with last_partial_update := now }, true)
    else (s, false)
  let s1 := refreshed.1
  let needs_sort := refreshed.2
  if s1.last_sort_key ≠ some sort_by ∨ s1.last_sort_reverse ≠ reverse ∨
      needs_sort then
    let view := build_view cfg sort_by reverse search_query now s1
    let s2 := { s1 with
      cached_sorted_list := view
      last_sort_key := some sort_by
      last_sort_reverse := reverse }
    let s3 := update_visible visible_range s2
    (s3.cached_sorted_list, s3)
  else if py_strip search_query ≠ "" then
    (s1.cached_sorted_list.filter (search_pred search_query), s1)
  else
    let s3 := update_visible visible_range s1
    (s3.cached_sorted_list, s3)

/-- The method names defined on `class ProcessManager`
(`src/process_manager.py`); Python resolves `self._full_update()` against
this set at call time. -/
def pm_method_names : List String :=
  ["__init__", "_normalize_cpu", "_initialize_cpu_measurements",
   "_calculate_trends", "get_processes", "_full_update_optimized",
   "_partial_update_optimized", "force_update", "get_process_threads",
   "get_process_exe", "kill_process"]

/-- `ProcessManager.force_update` (`process_manager.py` lines 328-335).  Its
first statement is `self._full_update()`; attribute lookup succeeds only if
the class defines `_full_update`, otherwise Python raises `AttributeError`
before any of the remaining statements run. -/
def force_update (cfg : Config) (env : OsEnv) (now : ℚ) (s : PMState) :
    Except String PMState :=
  if pm_method_names.contains "_full_update" then
    let s1 := full_update_optimized cfg env.full_entries now s
    Except.ok { s1 with
      last_full_update := now
      last_partial_update := now
      cached_sorted_list := []
      last_sort_key := none }
  else
    Except.error
      "AttributeError: ProcessManager object has no attribute _full_update"

/-- psutil exceptions relevant to `kill_process`. -/
inductive PsErr where
  | noSuchProcess
  | accessDenied
  | timeoutExpired
  | other (msg : String)
deriving DecidableEq, Repr

/-- What the OS does during one `kill_process(pid, include_children)` call
(`process_manager.py` lines 390-447): each field is the outcome of one of
the psutil calls the method makes, `none` meaning the call succeeds.
`alive` is what `psutil.wait_procs(..., timeout=3)` reports still alive
after the 3-second wait (it returns `(gone, alive)` and never raises
`TimeoutExpired`), and `kill_res p` is the outcome of the force-kill
`p.kill()` issued for each such survivor.  `solo_wait` is the outcome of
`proc.wait(timeout=3)` on the single-process path, and `solo_kill` the
outcome of the `proc.kill()` in the `TimeoutExpired` handler (line 442),
whose failure message is taken as `str(e)`. -/
structure KillEnv where
  lookup_err : Option PsErr := none
  children_err : Option PsErr := none
  children : List Nat := []
  parent_term_err : Option PsErr := none
  child_term_err : Nat → Option PsErr := fun _ => none
  alive : List Nat := []
  kill_res : Nat → Option PsErr := fun _ => none
  solo_wait : Option PsErr := none
  solo_kill : Option String := none

/-- Exceptions swallowed by the per-child `except (NoSuchProcess,
AccessDenied): pass` handlers (`process_manager.py` lines 416-417 and
426-427); the first exception of any other kind propagates to the outer
handler. -/
def first_unswallowed (f : Nat → Option PsErr) : List Nat → Option PsErr
  | [] => none
  | p :: ps =>
      match f p with
      | some PsErr.noSuchProcess => first_unswallowed f ps
      | some PsErr.accessDenied => first_unswallowed f ps
      | some e => some e
      | none => first_unswallowed f ps

/-- The `except` clauses of `kill_process` (`process_manager.py` lines
434-447), mapping a raised exception to the `(success, error)` pair the
caller receives.  `proc_bound` tells whether the local `proc` was assigned
before the exception (the `if proc:` guard at line 441). -/
def kill_catch (env : KillEnv) (proc_bound : Bool) : PsErr → Bool × Option String
  | PsErr.noSuchProcess => (false, some "Process no longer exists")
  | PsErr.accessDenied =>
      (false, some "Access denied - requires administrator privileges")
  | PsErr.timeoutExpired =>
      if proc_bound then
        match env.solo_kill with
        | none => (true, none)
        | some m => (false, some ("Failed to kill process: " ++ m))
      else (true, none)
  | PsErr.other m => (false, some ("Error: " ++ m))

/-- `ProcessManager.kill_process` (`process_manager.py` lines 390-447). -/
def kill_process (env : KillEnv) (include_children : Bool) :
    Bool × Option String :=
  match env.lookup_err with
  | some e => kill_catch env false e
  | none =>
      if include_children then
        match env.children_err with
        | some e => kill_catch env true e
        | none =>
            match env.parent_term_err with
            | some e => kill_catch env true e
            | none =>
                match first_unswallowed env.child_term_err env.children with
                | some e => kill_catch env true e
                | none =>
                    match first_unswallowed env.kill_res env.alive with
                    | some e => kill_catch env true e
                    | none => (true, none)
      else
        match env.parent_term_err with
        | some e => kill_catch env true e
        | none =>
            match env.solo_wait with
            | some e => kill_catch env true e
            | none => (true, none)

/-! ### Concrete fixtures used by counterexamples and witnesses -/

/-- A cached record for PID 1 named `alpha`. -/
def pA : ProcessInfo := { pid := 1, name := "alpha", cpu_percent := 0, memory_mb := 0 }

/-- A cached record for PID 2 named `beta`. -/
def pB : ProcessInfo := { pid := 2, name := "beta", cpu_percent := 0, memory_mb := 0 }

/-- A full-enumeration row for PID 1 (1 MiB resident, 5% raw cpu). -/
def eA : FullEntry :=
  { pid := 1, name := "alpha", mem_info := some 1048576, status := "running", cpu_raw := 5 }

/-- A full-enumeration row for PID 2. -/
def eB : FullEntry :=
  { pid := 2, name := "beta", mem_info := none, status := "running", cpu_raw := 0 }

/-- An OS environment whose enumeration returns PIDs 1 and 2 and whose
sampler always succeeds with zeros. -/
def env2 : OsEnv := { full_entries := [eA, eB], sample := fun _ => Except.ok (0, 0) }

/-- A sampler for which every PID has vanished. -/
def sample_gone : SampleFn := fun _ => Except.error SampleErr.noSuchProcess

/-- A sampler for which every PID has become unreadable. -/
def sample_denied : SampleFn := fun _ => Except.error SampleErr.accessDenied

/-- Manager state with PIDs 1 and 2 cached, a fresh view, and the last full
refresh at time 0 (intervals as hard-coded by `__init__`). -/
def s2st : PMState :=
  { processes_cache := [(1, pA), (2, pB)], process_birth_times := [(1, 0), (2, 0)],
    last_full_update := 0, last_partial_update := 0, update_interval := 2,
    partial_interval := 3/10, last_sort_key := some "cpu",
    last_sort_reverse := true, cached_sorted_list := [pA, pB], visible_pids := [],
    cpu_count := 1 }

/-- `pA` as memoized by a view rebuild at time 4.8 (its birth time is 0, so
`4.8 - 0 < 5` made it `is_new`). -/
def pStale : ProcessInfo :=
  { pid := 1, name := "alpha", cpu_percent := 0, memory_mb := 0, is_new := true }

/-- Manager state just after that rebuild at time 4.8: both refresh
timestamps are 4.8 and the memoized view still flags PID 1 as new. -/
def s3st : PMState :=
  { processes_cache := [(1, pStale)], process_birth_times := [(1, 0)],
    last_full_update := 24/5, last_partial_update := 24/5, update_interval := 2,
    partial_interval := 3/10, last_sort_key := some "cpu",
    last_sort_reverse := true, cached_sorted_list := [pStale], visible_pids := [],
    cpu_count := 1 }

/-- Manager state in which PID 1 survived an earlier full refresh (so it is
cached and carries the birth time 10 recorded back then). -/
def s6st : PMState :=
  { processes_cache := [(1, pA)], process_birth_times := [(1, 10)],
    last_full_update := 0, last_partial_update := 0, update_interval := 2,
    partial_interval := 3/10, last_sort_key := some "cpu",
    last_sort_reverse := true, cached_sorted_list := [pA], visible_pids := [],
    cpu_count := 1 }

/-- Manager state with only PID 1 cached, used for partial-refresh removal
witnesses. -/
def s7st : PMState :=
  { processes_cache := [(1, pA)], process_birth_times := [(1, 0)],
    last_full_update := 0, last_partial_update := 0, update_interval := 2,
    partial_interval := 3/10, last_sort_key := some "cpu",
    last_sort_reverse := true, cached_sorted_list := [pA], visible_pids := [],
    cpu_count := 1 }

/-- A kill scenario: child 501 survives the graceful wait and its force-kill
raises `AccessDenied`. -/
def env_hidden : KillEnv :=
  { children := [501], alive := [501],
    kill_res := fun p => if p = 501 then some PsErr.accessDenied else none }

/-- A kill scenario on the single-process path: the graceful wait times out
and the force-kill raises with message `Access denied`. -/
def env_timeout : KillEnv :=
  { solo_wait := some PsErr.timeoutExpired, solo_kill := some "Access denied" }

/-! ### Association-list lemmas -/

theorem alookup_ainsert_self {α : Type} (k : Nat) (v : α) (l : List (Nat × α)) :
    alookup k (ainsert k v l) = some v := by
  induction l with
  | nil => simp [ainsert, alookup]
  | cons kv rest ih =>
      by_cases h : kv.1 = k
      · simp [ainsert, h, alookup]
      · simp [ainsert, h, alookup, ih]

theorem alookup_ainsert_ne {α : Type} (k k' : Nat) (v : α) (l : List (Nat × α))
    (h : k' ≠ k) : alookup k' (ainsert k v l) = alookup k' l := by
  induction l with
  | nil => simp [ainsert, alookup, Ne.symm h]
  | cons kv rest ih =>
      by_cases hk : kv.1 = k
      · simp [ainsert, hk, alookup, Ne.symm h]
      · simp [ainsert, hk, alookup, ih]

theorem alookup_aerase_self {α : Type} (k : Nat) (l : List (Nat × α)) :
    alookup k (aerase k l) = none := by
  induction l with
  | nil => simp [aerase, alookup]
  | cons kv rest ih =>
      by_cases h : kv.1 = k
      · simpa [aerase, h] using ih
      · simpa [aerase, h, alookup] using ih

theorem alookup_aerase_none {α : Type} (k k' : Nat) (l : List (Nat × α))
    (h : alookup k' l = none) : alookup k' (aerase k l) = none := by
  induction l with
  | nil => simp [aerase, alookup]
  | cons kv rest ih =>
      by_cases hk' : kv.1 = k'
      · simp [alookup, hk'] at h
      · simp [alookup, hk'] at h
        by_cases hk : kv.1 = k
        · simpa [aerase, hk] using ih h
        · simpa [aerase, hk, alookup, hk'] using ih h

theorem alookup_amodify_isSome {α : Type} (k k' : Nat) (f : α → α)
    (l : List (Nat × α)) :
    (alookup k' (amodify k f l)).isSome = (alookup k' l).isSome := by
  induction l with
  | nil => simp [amodify, alookup]
  | cons kv rest ih =>
      by_cases hk : kv.1 = k
      · by_cases hk' : kv.1 = k'
        · have hkk : k = k' := hk ▸ hk'
          simp [amodify, alookup, hk, hkk, ih]
        · have hkk : ¬ k = k' := fun h => hk' (hk.trans h)
          simp [amodify, alookup, hk, hkk, ih]
      · by_cases hk' : kv.1 = k'
        · have hkk : ¬ k' = k := fun h => hk (hk'.trans h)
          simp [amodify, alookup, hk, hk', hkk, ih]
        · simp [amodify, alookup, hk, hk', ih]

theorem alookup_isSome_iff_mem_keys {α : Type} (k : Nat) (l : List (Nat × α)) :
    (alookup k l).isSome = true ↔ k ∈ l.map Prod.fst := by
  induction l with
  | nil => simp [alookup]
  | cons kv rest ih =>
      by_cases h : kv.1 = k
      · simp [alookup, h]
      · simp [alookup, h, ih, Ne.symm h]

theorem alookup_filter_keys {α β : Type} (b : List (Nat × α)) (c : List (Nat × β))
    (k : Nat) :
    alookup k (b.filter (fun kv => (alookup kv.1 c).isSome)) =
      if (alookup k c).isSome then alookup k b else none := by
  induction b with
  | nil => simp [alookup]
  | cons kv rest ih =>
      by_cases hk : kv.1 = k
      · subst hk
        by_cases hc : (alookup kv.1 c).isSome
        · simp [List.filter, hc, alookup, ih]
        · simp only [List.filter, hc]
          simpa [alookup, hc] using ih
      · by_cases hc : (alookup kv.1 c).isSome
        · simpa [List.filter, hc, alookup, hk] using ih
        · simpa [List.filter, hc, alookup, hk] using ih

/-! ### Stable-sort membership -/

theorem mem_ordered_insert {α : Type} (le : α → α → Bool) (x a : α)
    (l : List α) : a ∈ ordered_insert le x l ↔ a = x ∨ a ∈ l := by
  induction l with
  | nil => simp [ordered_insert]
  | cons y ys ih =>
      by_cases h : le x y
      · simp [ordered_insert, h]
      · simp [ordered_insert, h, ih]
        tauto

theorem mem_stable_sort {α : Type} (le : α → α → Bool) (a : α) (l : List α) :
    a ∈ stable_sort le l ↔ a ∈ l := by
  induction l with
  | nil => simp [stable_sort]
  | cons x xs ih =>
      simp [stable_sort, mem_ordered_insert, ih]

/-! ### Partial-update fold lemmas -/

theorem vis_fold_removals_mono (cfg : Config) (cc : Nat) (sample : SampleFn)
    (l : List Nat) (acc : List (Nat × ProcessInfo) × List Nat) (x : Nat)
    (hx : x ∈ acc.2) :
    x ∈ (l.foldl (vis_step cfg cc sample) acc).2 := by
  induction l generalizing acc with
  | nil => simpa using hx
  | cons p ps ih =>
      apply ih
      unfold vis_step
      by_cases h1 : (alookup p acc.1).isNone
      · simpa [h1] using hx
      · by_cases h2 : cfg.FILTER_SYSTEM_IDLE && decide (p = 0)
        · simpa [h1, h2] using hx
        · cases hs : sample p with
          | ok v => simpa [h1, h2, hs] using hx
          | error e => simp [h1, h2, hs, hx]

theorem cpu_fold_removals_mono (cfg : Config) (cc : Nat) (sample : SampleFn)
    (l : List Nat) (acc : List (Nat × ProcessInfo) × List Nat) (x : Nat)
    (hx : x ∈ acc.2) :
    x ∈ (l.foldl (cpu_step cfg cc sample) acc).2 := by
  induction l generalizing acc with
  | nil => simpa using hx
  | cons p ps ih =>
      apply ih
      unfold cpu_step
      by_cases h2 : cfg.FILTER_SYSTEM_IDLE && decide (p = 0)
      · simpa [h2] using hx
      · cases hs : sample p with
        | ok v => simpa [h2, hs] using hx
        | error e => simp [h2, hs, hx]

theorem vis_step_keys (cfg : Config) (cc : Nat) (sample : SampleFn)
    (acc : List (Nat × ProcessInfo) × List Nat) (p x : Nat) :
    (alookup x (vis_step cfg cc sample acc p).1).isSome =
      (alookup x acc.1).isSome := by
  unfold vis_step
  by_cases h1 : (alookup p acc.1).isNone
  · simp [h1]
  · by_cases h2 : cfg.FILTER_SYSTEM_IDLE && decide (p = 0)
    · simp [h1, h2]
    · cases hs : sample p with
      | ok v => simp [h1, h2, hs, alookup_amodify_isSome]
      | error e => simp [h1, h2, hs]

theorem cpu_step_keys (cfg : Config) (cc : Nat) (sample : SampleFn)
    (acc : List (Nat × ProcessInfo) × List Nat) (p x : Nat) :
    (alookup x (cpu_step cfg cc sample acc p).1).isSome =
      (alookup x acc.1).isSome := by
  unfold cpu_step
  by_cases h2 : cfg.FILTER_SYSTEM_IDLE && decide (p = 0)
  · simp [h2]
  · cases hs : sample p with
    | ok v => simp [h2, hs, alookup_amodify_isSome]
    | error e => simp [h2, hs]

theorem vis_fold_keys (cfg : Config) (cc : Nat) (sample : SampleFn)
    (l : List Nat) (acc : List (Nat × ProcessInfo) × List Nat) (x : Nat) :
    (alookup x ((l.foldl (vis_step cfg cc sample) acc).1)).isSome =
      (alookup x acc.1).isSome := by
  induction l generalizing acc with
  | nil => simp
  | cons p ps ih => rw [List.foldl_cons, ih, vis_step_keys]

theorem vis_fold_reach (cfg : Config) (cc : Nat) (sample : SampleFn)
    (l : List Nat) (acc : List (Nat × ProcessInfo) × List Nat) (pid : Nat)
    (hmem : pid ∈ l) (hc : (alookup pid acc.1).isSome = true)
    (hid : (cfg.FILTER_SYSTEM_IDLE && decide (pid = 0)) = false)
    (e : SampleErr) (hs : sample pid = Except.error e) :
    pid ∈ (l.foldl (vis_step cfg cc sample) acc).2 := by
  induction l generalizing acc with
  | nil => cases hmem
  | cons p ps ih =>
      rw [List.foldl_cons]
      rcases List.mem_cons.mp hmem with hp | hp
      · subst hp
        apply vis_fold_removals_mono
        unfold vis_step
        have h1 : (alookup pid acc.1).isNone = false := by
          cases hmatch : alookup pid acc.1 with
          | none => rw [hmatch] at hc; simp at hc
          | some v => rfl
        simp [h1, hid, hs]
      · apply ih _ hp
        rw [vis_step_keys]
        exact hc

theorem cpu_fold_reach (cfg : Config) (cc : Nat) (sample : SampleFn)
    (l : List Nat) (acc : List (Nat × ProcessInfo) × List Nat) (pid : Nat)
    (hmem : pid ∈ l)
    (hid : (cfg.FILTER_SYSTEM_IDLE && decide (pid = 0)) = false)
    (e : SampleErr) (hs : sample pid = Except.error e) :
    pid ∈ (l.foldl (cpu_step cfg cc sample) acc).2 := by
  induction l generalizing acc with
  | nil => cases hmem
  | cons p ps ih =>
      rw [List.foldl_cons]
      rcases List.mem_cons.mp hmem with hp | hp
      · subst hp
        apply cpu_fold_removals_mono
        unfold cpu_step
        simp [hid, hs]
      · exact ih _ hp

theorem apply_removals_cache_none (pids : List Nat) (s : PMState) (pid : Nat)
    (h : alookup pid s.processes_cache = none) :
    alookup pid (apply_removals pids s).processes_cache = none := by
  induction pids generalizing s with
  | nil => simpa [apply_removals] using h
  | cons p ps ih =>
      unfold apply_removals
      rw [List.foldl_cons]
      exact ih _ (alookup_aerase_none p pid _ h)

theorem apply_removals_cache (pids : List Nat) (s : PMState) (pid : Nat)
    (h : pid ∈ pids) :
    alookup pid (apply_removals pids s).processes_cache = none := by
  induction pids generalizing s with
  | nil => cases h
  | cons p ps ih =>
      unfold apply_removals
      rw [List.foldl_cons]
      rcases List.mem_cons.mp h with hp | hp
      · subst hp
        exact apply_removals_cache_none ps _ pid (alookup_aerase_self pid _)
      · exact ih _ hp

theorem apply_removals_births_none (pids : List Nat) (s : PMState) (pid : Nat)
    (h : alookup pid s.process_birth_times = none) :
    alookup pid (apply_removals pids s).process_birth_times = none := by
  induction pids generalizing s with
  | nil => simpa [apply_removals] using h
  | cons p ps ih =>
      unfold apply_removals
      rw [List.foldl_cons]
      exact ih _ (alookup_aerase_none p pid _ h)

theorem apply_removals_births (pids : List Nat) (s : PMState) (pid : Nat)
    (h : pid ∈ pids) :
    alookup pid (apply_removals pids s).process_birth_times = none := by
  induction pids generalizing s with
  | nil => cases h
  | cons p ps ih =>
      unfold apply_removals
      rw [List.foldl_cons]
      rcases List.mem_cons.mp h with hp | hp
      · subst hp
        exact apply_removals_births_none ps _ pid (alookup_aerase_self pid _)
      · exact ih _ hp

theorem apply_removals_visible_not (pids : List Nat) (s : PMState) (pid : Nat)
    (h : pid ∉ s.visible_pids) :
    pid ∉ (apply_removals pids s).visible_pids := by
  induction pids generalizing s with
  | nil => simpa [apply_removals] using h
  | cons p ps ih =>
      unfold apply_removals
      rw [List.foldl_cons]
      apply ih
      intro hmem
      exact h (List.mem_of_mem_filter hmem)

theorem apply_removals_visible (pids : List Nat) (s : PMState) (pid : Nat)
    (h : pid ∈ pids) :
    pid ∉ (apply_removals pids s).visible_pids := by
  induction pids generalizing s with
  | nil => cases h
  | cons p ps ih =>
      unfold apply_removals
      rw [List.foldl_cons]
      rcases List.mem_cons.mp h with hp | hp
      · subst hp
        apply apply_removals_visible_not
        intro hmem
        rcases List.mem_filter.mp hmem with ⟨_, hne⟩
        simp at hne
      · exact ih _ hp

/-- Any cached, non-idle-filtered PID whose sample fails during a partial
refresh ends up in the deferred-removal queue and is deleted from the cache,
the birth-time table and the visible set. -/
theorem partial_update_removes_failed (cfg : Config) (sample : SampleFn)
    (s : PMState) (pid : Nat)
    (hc : (alookup pid s.processes_cache).isSome = true)
    (hid : (cfg.FILTER_SYSTEM_IDLE && decide (pid = 0)) = false)
    (e : SampleErr) (hs : sample pid = Except.error e) :
    alookup pid (partial_update_optimized cfg sample s).processes_cache = none ∧
    alookup pid (partial_update_optimized cfg sample s).process_birth_times = none ∧
    pid ∉ (partial_update_optimized cfg sample s).visible_pids := by
  unfold partial_update_optimized
  by_cases hv : s.visible_pids ≠ []
  · rw [if_pos hv]
    set r1 := s.visible_pids.foldl (vis_step cfg s.cpu_count sample)
        (s.processes_cache, []) with hr1
    set non_visible := (r1.1.map (fun kv => kv.1)).filter
        (fun pid => !s.visible_pids.contains pid) with hnv
    have hrem : pid ∈ (non_visible.foldl (cpu_step cfg s.cpu_count sample) r1).2 := by
      by_cases hmem : pid ∈ s.visible_pids
      · apply cpu_fold_removals_mono
        exact vis_fold_reach cfg s.cpu_count sample _ _ pid hmem hc hid e hs
      · have hkey : (alookup pid r1.1).isSome = true := by
          rw [hr1, vis_fold_keys]
          exact hc
        have hpidmem : pid ∈ non_visible := by
          rw [hnv]
          apply List.mem_filter.mpr
          refine ⟨(alookup_isSome_iff_mem_keys pid r1.1).mp hkey, ?_⟩
          simpa using hmem
        exact cpu_fold_reach cfg s.cpu_count sample _ _ pid hpidmem hid e hs
    exact ⟨apply_removals_cache _ _ _ hrem, apply_removals_births _ _ _ hrem,
      apply_removals_visible _ _ _ hrem⟩
  · rw [if_neg hv]
    have hmem : pid ∈ s.processes_cache.map (fun kv => kv.1) := by
      simpa [List.map] using (alookup_isSome_iff_mem_keys pid s.processes_cache).mp hc
    have hrem : pid ∈ ((s.processes_cache.map (fun kv => kv.1)).foldl
        (cpu_step cfg s.cpu_count sample) (s.processes_cache, [])).2 :=
      cpu_fold_reach cfg s.cpu_count sample _ _ pid hmem hid e hs
    exact ⟨apply_removals_cache _ _ _ hrem, apply_removals_births _ _ _ hrem,
      apply_removals_visible _ _ _ hrem⟩

/-! ### Full-update fold lemmas -/

theorem full_step_cache_lookup_ne (cfg : Config) (cc : Nat) (now : ℚ)
    (oc : List (Nat × ProcessInfo))
    (acc : List (Nat × ProcessInfo) × List (Nat × ℚ)) (e : FullEntry)
    (pid : Nat) (hne : e.pid ≠ pid) :
    alookup pid (full_update_step cfg cc now oc acc e).1 = alookup pid acc.1 := by
  unfold full_update_step
  by_cases hidle : cfg.FILTER_SYSTEM_IDLE && decide (e.pid = 0)
  · simp [hidle]
  · simp only [hidle, Bool.false_eq_true, if_false]
    cases holdc : alookup e.pid oc with
    | some old =>
        cases e.cpu_call_fails <;>
          simp [alookup_ainsert_ne _ _ _ _ (Ne.symm hne)]
    | none =>
        cases hcf : e.cpu_call_fails with
        | some err => simp
        | none =>
            cases hsf : e.second_cpu_fails with
            | none => simp [alookup_ainsert_ne _ _ _ _ (Ne.symm hne)]
            | some err =>
                cases err <;> simp [alookup_ainsert_ne _ _ _ _ (Ne.symm hne)]

theorem full_step_birth_lookup_ne (cfg : Config) (cc : Nat) (now : ℚ)
    (oc : List (Nat × ProcessInfo))
    (acc : List (Nat × ProcessInfo) × List (Nat × ℚ)) (e : FullEntry)
    (pid : Nat) (hne : e.pid ≠ pid) :
    alookup pid (full_update_step cfg cc now oc acc e).2 = alookup pid acc.2 := by
  unfold full_update_step
  by_cases hidle : cfg.FILTER_SYSTEM_IDLE && decide (e.pid = 0)
  · simp [hidle]
  · simp only [hidle, Bool.false_eq_true, if_false]
    cases holdc : alookup e.pid oc with
    | some old => cases e.cpu_call_fails <;> simp
    | none =>
        cases hcf : e.cpu_call_fails with
        | some err => simp
        | none =>
            cases hsf : e.second_cpu_fails with
            | none => simp [alookup_ainsert_ne _ _ _ _ (Ne.symm hne)]
            | some err =>
                cases err <;> simp [alookup_ainsert_ne _ _ _ _ (Ne.symm hne)]

theorem full_step_birth_old (cfg : Config) (cc : Nat) (now : ℚ)
    (oc : List (Nat × ProcessInfo))
    (acc : List (Nat × ProcessInfo) × List (Nat × ℚ)) (e : FullEntry)
    (pid : Nat) (hold : (alookup pid oc).isSome = true) :
    alookup pid (full_update_step cfg cc now oc acc e).2 = alookup pid acc.2 := by
  by_cases hne : e.pid = pid
  · subst hne
    unfold full_update_step
    by_cases hidle : cfg.FILTER_SYSTEM_IDLE && decide (e.pid = 0)
    · simp [hidle]
    · simp only [hidle, Bool.false_eq_true, if_false]
      cases holdc : alookup e.pid oc with
      | some old => cases e.cpu_call_fails <;> simp
      | none => rw [holdc] at hold; simp at hold
  · exact full_step_birth_lookup_ne cfg cc now oc acc e pid hne

theorem full_fold_birth_old (cfg : Config) (cc : Nat) (now : ℚ)
    (oc : List (Nat × ProcessInfo)) (entries : List FullEntry) (pid : Nat)
    (hold : (alookup pid oc).isSome = true)
    (acc : List (Nat × ProcessInfo) × List (Nat × ℚ)) :
    alookup pid (entries.foldl (full_update_step cfg cc now oc) acc).2 =
      alookup pid acc.2 := by
  induction entries generalizing acc with
  | nil => rfl
  | cons e es ih =>
      rw [List.foldl_cons, ih, full_step_birth_old cfg cc now oc acc e pid hold]

theorem full_fold_birth_new (cfg : Config) (cc : Nat) (now : ℚ)
    (oc : List (Nat × ProcessInfo)) (entries : List FullEntry) (pid : Nat)
    (hold : alookup pid oc = none)
    (acc : List (Nat × ProcessInfo) × List (Nat × ℚ))
    (hinv : (alookup pid acc.1).isSome = true → alookup pid acc.2 = some now)
    (hres : (alookup pid
        (entries.foldl (full_update_step cfg cc now oc) acc).1).isSome = true) :
    alookup pid (entries.foldl (full_update_step cfg cc now oc) acc).2 =
      some now := by
  induction entries generalizing acc with
  | nil => exact hinv hres
  | cons e es ih =>
      rw [List.foldl_cons] at hres ⊢
      apply ih _ _ hres
      by_cases hne : e.pid = pid
      · subst hne
        unfold full_update_step
        by_cases hidle : cfg.FILTER_SYSTEM_IDLE && decide (e.pid = 0)
        · simpa [hidle] using hinv
        · simp only [hidle, Bool.false_eq_true, if_false]
          rw [hold]
          cases hcf : e.cpu_call_fails with
          | some err => simpa using hinv
          | none =>
              cases hsf : e.second_cpu_fails with
              | none => simp [alookup_ainsert_self]
              | some err =>
                  cases err <;> simp [alookup_ainsert_self] <;>
                    simpa using hinv
      · rw [full_step_cache_lookup_ne cfg cc now oc acc e pid hne,
          full_step_birth_lookup_ne cfg cc now oc acc e pid hne]
        exact hinv

/-- The `cached_sorted_list` of a state is untouched by the visible-PID
bookkeeping. -/
theorem update_visible_cached (vr : Option (Nat × Nat)) (s : PMState) :
    (update_visible vr s).cached_sorted_list = s.cached_sorted_list := by
  cases vr with
  | none => rfl
  | some r =>
      obtain ⟨a, b⟩ := r
      unfold update_visible
      by_cases h : s.cached_sorted_list = []
      · simp [h]
      · simp [h]

/-- Every record of a rebuilt view carries the freshly recomputed `is_new`
flag. -/
theorem build_view_is_new (cfg : Config) (sort_by : String) (reverse : Bool)
    (q : String) (now : ℚ) (s : PMState) (p : ProcessInfo)
    (hp : p ∈ build_view cfg sort_by reverse q now s) :
    p.is_new = is_new_flag cfg now s.process_birth_times p.pid := by
  unfold build_view at hp
  by_cases hk : known_sort_key sort_by = true
  · rw [if_pos hk] at hp
    rcases List.mem_map.mp ((mem_stable_sort _ _ _).mp hp) with ⟨p0, _, rfl⟩
    rfl
  · rw [if_neg hk] at hp
    rcases List.mem_map.mp hp with ⟨p0, _, rfl⟩
    rfl

/-- C1.  `force_update` never refreshes nor invalidates anything: its first
statement calls the undefined method `_full_update`, so every call raises
`AttributeError` and leaves the manager untouched. -/
theorem force_update_always_raises (cfg : Config) (env : OsEnv) (now : ℚ)
    (s : PMState) :
    force_update cfg env now s =
      Except.error
        "AttributeError: ProcessManager object has no attribute _full_update" :=
  rfl

/-- C5.  The trend indicator (as computed by `_calculate_trends` through
`trend_symbol`) is rising iff `new - old ≥ threshold`, falling iff
`old - new ≥ threshold`, and blank (stable) exactly otherwise — in
particular a difference exactly equal to a positive threshold is not
stable. -/
theorem trend_symbol_spec (oldv newv t : ℚ) (ht : 0 < t) :
    (trend_symbol (newv - oldv) t = "▲" ↔ t ≤ newv - oldv) ∧
    (trend_symbol (newv - oldv) t = "▼" ↔ t ≤ oldv - newv) ∧
    (trend_symbol (newv - oldv) t = "" ↔
      ¬ t ≤ newv - oldv ∧ ¬ t ≤ oldv - newv) ∧
    (∀ (cfg : Config) (p old : ProcessInfo),
      (calculate_trends cfg p (some old)).cpu_trend =
        trend_symbol (p.cpu_percent - old.cpu_percent)
          cfg.SIGNIFICANT_CPU_CHANGE ∧
      (calculate_trends cfg p (some old)).memory_trend =
        trend_symbol (p.memory_mb - old.memory_mb)
          cfg.SIGNIFICANT_MEMORY_CHANGE) := by
  refine ⟨?_, ?_, ?_, fun cfg p old => ⟨rfl, rfl⟩⟩ <;> unfold trend_symbol
  · by_cases habs : |newv - oldv| ≥ t
    · by_cases hpos : newv - oldv > 0
      · have h1 : t ≤ newv - oldv := by rwa [abs_of_pos hpos] at habs
        rw [if_pos habs, if_pos hpos]
        exact ⟨fun _ => h1, fun _ => rfl⟩
      · have hd : newv - oldv ≤ 0 := le_of_not_lt hpos
        have h1 : ¬ t ≤ newv - oldv := by intro hx; linarith
        rw [if_pos habs, if_neg hpos]
        exact ⟨fun heq => absurd heq (by decide), fun hle => absurd hle h1⟩
    · have hlt : |newv - oldv| < t := lt_of_not_ge habs
      have h1 : ¬ t ≤ newv - oldv := by
        intro hx
        have := le_abs_self (newv - oldv)
        linarith
      rw [if_neg habs]
      exact ⟨fun heq => absurd heq (by decide), fun hle => absurd hle h1⟩
  · by_cases habs : |newv - oldv| ≥ t
    · by_cases hpos : newv - oldv > 0
      · have h2 : ¬ t ≤ oldv - newv := by intro hx; linarith
        rw [if_pos habs, if_pos hpos]
        exact ⟨fun heq => absurd heq (by decide), fun hle => absurd hle h2⟩
      · have hd : newv - oldv ≤ 0 := le_of_not_lt hpos
        have h2 : t ≤ oldv - newv := by
          have := abs_of_nonpos hd
          rw [this] at habs
          linarith
        rw [if_pos habs, if_neg hpos]
        exact ⟨fun _ => h2, fun _ => rfl⟩
    · have hlt : |newv - oldv| < t := lt_of_not_ge habs
      have h2 : ¬ t ≤ oldv - newv := by
        intro hx
        have := neg_abs_le (newv - oldv)
        linarith
      rw [if_neg habs]
      exact ⟨fun heq => absurd heq (by decide), fun hle => absurd hle h2⟩
  · by_cases habs : |newv - oldv| ≥ t
    · by_cases hpos : newv - oldv > 0
      · have h1 : t ≤ newv - oldv := by rwa [abs_of_pos hpos] at habs
        rw [if_pos habs, if_pos hpos]
        exact ⟨fun heq => absurd heq (by decide), fun hc => absurd h1 hc.1⟩
      · have hd : newv - oldv ≤ 0 := le_of_not_lt hpos
        have h2 : t ≤ oldv - newv := by
          have := abs_of_nonpos hd
          rw [this] at habs
          linarith
        rw [if_pos habs, if_neg hpos]
        exact ⟨fun heq => absurd heq (by decide), fun hc => absurd h2 hc.2⟩
    · have hlt : |newv - oldv| < t := lt_of_not_ge habs
      have h1 : ¬ t ≤ newv - oldv := by
        intro hx
        have := le_abs_self (newv - oldv)
        linarith
      have h2 : ¬ t ≤ oldv - newv := by
        intro hx
        have := neg_abs_le (newv - oldv)
        linarith
      rw [if_neg habs]
      exact ⟨fun _ => ⟨h1, h2⟩, fun _ => rfl⟩

/-- Witness for C5 at the exact boundary: a rise of exactly the threshold is
marked rising, not stable. -/
theorem trend_symbol_spec_witness :
    trend_symbol ((10 : ℚ) - 0) 10 = "▲" :=
  (trend_symbol_spec 0 10 10 (by norm_num)).1.mpr (by norm_num)

/-- C7.  During a partial refresh, a cached PID whose sample fails with
`NoSuchProcess` is queued for removal and, once the pass is over, deleted
from the cache, the birth-time table and the visible set (the embedding
`partial_update_optimized` mirrors the source's deferred-removal structure:
all three deletions happen only in the `apply_removals` block after every
iteration has finished). -/
theorem partial_update_removes_no_such_process (cfg : Config)
    (sample : SampleFn) (s : PMState) (pid : Nat)
    (hc : (alookup pid s.processes_cache).isSome = true)
    (hid : cfg.FILTER_SYSTEM_IDLE = false ∨ pid ≠ 0)
    (hs : sample pid = Except.error SampleErr.noSuchProcess) :
    alookup pid (partial_update_optimized cfg sample s).processes_cache = none ∧
    alookup pid (partial_update_optimized cfg sample s).process_birth_times = none ∧
    pid ∉ (partial_update_optimized cfg sample s).visible_pids := by
  have hid' : (cfg.FILTER_SYSTEM_IDLE && decide (pid = 0)) = false := by
    rcases hid with h | h
    · simp [h]
    · simp [h]
  exact partial_update_removes_failed cfg sample s pid hc hid' _ hs

/-- Witness for C7: PID 1 is cached, its sample says the process is gone,
and after the partial refresh it has left all three tables. -/
theorem partial_update_removes_no_such_process_witness :
    alookup 1 (partial_update_optimized config_actual sample_gone s7st).processes_cache = none ∧
    alookup 1 (partial_update_optimized config_actual sample_gone s7st).process_birth_times = none ∧
    1 ∉ (partial_update_optimized config_actual sample_gone s7st).visible_pids :=
  partial_update_removes_no_such_process config_actual sample_gone s7st 1
    (by decide) (Or.inr (by decide)) rfl

/-- C8.  Removal during a partial refresh is not limited to the
no-such-process case: a cached PID whose sample fails with `AccessDenied`
or `ZombieProcess` is deleted from the cache, the birth-time table and the
visible set in exactly the same way. -/
theorem partial_update_removes_denied_or_zombie (cfg : Config)
    (sample : SampleFn) (s : PMState) (pid : Nat)
    (hc : (alookup pid s.processes_cache).isSome = true)
    (hid : cfg.FILTER_SYSTEM_IDLE = false ∨ pid ≠ 0)
    (hs : sample pid = Except.error SampleErr.accessDenied ∨
      sample pid = Except.error SampleErr.zombieProcess) :
    alookup pid (partial_update_optimized cfg sample s).processes_cache = none ∧
    alookup pid (partial_update_optimized cfg sample s).process_birth_times = none ∧
    pid ∉ (partial_update_optimized cfg sample s).visible_pids := by
  have hid' : (cfg.FILTER_SYSTEM_IDLE && decide (pid = 0)) = false := by
    rcases hid with h | h
    · simp [h]
    · simp [h]
  rcases hs with hs | hs
  · exact partial_update_removes_failed cfg sample s pid hc hid' _ hs
  · exact partial_update_removes_failed cfg sample s pid hc hid' _ hs

/-- Witness for C8: PID 1 is cached but has become unreadable
(`AccessDenied`), and the partial refresh removes it anyway. -/
theorem partial_update_removes_denied_or_zombie_witness :
    alookup 1 (partial_update_optimized config_actual sample_denied s7st).processes_cache = none ∧
    alookup 1 (partial_update_optimized config_actual sample_denied s7st).process_birth_times = none ∧
    1 ∉ (partial_update_optimized config_actual sample_denied s7st).visible_pids :=
  partial_update_removes_denied_or_zombie config_actual sample_denied s7st 1
    (by decide) (Or.inr (by decide)) (Or.inl rfl)

/-- C10.  The refresh scheduler runs off the `2.0`/`0.3` second intervals
hard-coded in `__init__`; `get_processes` behaves identically for every
value of the `FULL_UPDATE_INTERVAL`/`PARTIAL_UPDATE_INTERVAL` configuration
constants (which `process_manager.py` never imports), and those constants'
actual values (3 and 1 seconds) differ from the hard-coded ones. -/
theorem intervals_hardcoded_config_ignored :
    (∀ (f p f' p' : ℚ) (n fi : Bool) (sc sm nd : ℚ) (env : OsEnv)
      (sort_by : String) (reverse : Bool) (vr : Option (Nat × Nat))
      (q : String) (now : ℚ) (s : PMState),
      get_processes ⟨f, p, n, fi, sc, sm, nd⟩ env sort_by reverse vr q now s =
        get_processes ⟨f', p', n, fi, sc, sm, nd⟩ env sort_by reverse vr q now s) ∧
    (∀ cc : Nat, (pm_init cc).update_interval = 2 ∧
      (pm_init cc).partial_interval = 3/10) ∧
    config_actual.FULL_UPDATE_INTERVAL = 3 ∧
    config_actual.PARTIAL_UPDATE_INTERVAL = 1 :=
  ⟨fun _ _ _ _ _ _ _ _ _ _ _ _ _ _ _ _ => rfl,
   fun _ => ⟨rfl, rfl⟩, rfl, rfl⟩

/-- C2 counterexample.  When a refresh runs during a call with a non-empty
search query (here a full refresh at `now = 2`), the rebuilt view is the
search-filtered list and it IS stored into `_cached_sorted_list`: afterwards
the memoized view holds only `alpha` while the cache holds `alpha` and
`beta`, so the canonical memoized list does hold a search-filtered subset of
the cache. -/
theorem cached_view_holds_filtered_subset :
    (get_processes config_actual env2 "cpu" true none "alp" 2 s2st).2.cached_sorted_list.map
        (fun p => p.name) = ["alpha"] ∧
    (get_processes config_actual env2 "cpu" true none "alp" 2 s2st).2.processes_cache.map
        (fun kv => kv.2.name) = ["alpha", "beta"] := by
  with_unfolding_all decide

/-- C2 as amended.  On the fast path — non-empty query, no refresh due, sort
key and direction unchanged — the filter is applied directly to the memoized
sorted list and nothing is memoized: the manager state is returned
untouched. -/
theorem search_fast_path_not_memoized (cfg : Config) (env : OsEnv)
    (sort_by : String) (reverse : Bool) (vr : Option (Nat × Nat)) (q : String)
    (now : ℚ) (s : PMState)
    (h1 : now - s.last_full_update < s.update_interval)
    (h2 : now - s.last_partial_update < s.partial_interval)
    (hk : s.last_sort_key = some sort_by)
    (hr : s.last_sort_reverse = reverse)
    (hq : py_strip q ≠ "") :
    get_processes cfg env sort_by reverse vr q now s =
      (s.cached_sorted_list.filter (search_pred q), s) := by
  have hd1 : (decide (now - s.last_full_update ≥ s.update_interval)) = false :=
    decide_eq_false (not_le.mpr h1)
  have hd2 : (decide (now - s.last_partial_update ≥ s.partial_interval)) = false :=
    decide_eq_false (not_le.mpr h2)
  simp [get_processes, hd1, hd2, hk, hr, hq]

/-- Witness for the amended C2: a fast-path search call at `now = 0.1`
returns the filtered memoized list and leaves the state unchanged. -/
theorem search_fast_path_not_memoized_witness :
    get_processes config_actual env2 "cpu" true none "alp" (1/10) s2st =
      (s2st.cached_sorted_list.filter (search_pred "alp"), s2st) :=
  search_fast_path_not_memoized config_actual env2 "cpu" true none "alp"
    (1/10) s2st (by with_unfolding_all decide) (by with_unfolding_all decide)
    rfl rfl (by decide)

/-- C3 counterexample.  A call at `now = 5.05` that is served entirely from
the memoized view (last refresh 0.25 s ago, sort parameters unchanged, no
query) returns PID 1 still flagged `is_new = true` although its age
`5.05 - 0` has passed the 5-second highlight duration — recomputing the flag
would give `false`, so `is_new` is not recomputed on every query. -/
theorem stale_is_new_on_fast_path :
    (get_processes config_actual env2 "cpu" true none "" (101/20) s3st).1 = [pStale] ∧
    pStale.is_new = true ∧
    alookup 1 s3st.process_birth_times = some 0 ∧
    ¬ ((101 : ℚ)/20 - 0 < config_actual.NEW_PROCESS_HIGHLIGHT_DURATION) ∧
    is_new_flag config_actual (101/20) s3st.process_birth_times 1 = false := by
  with_unfolding_all decide

/-- C3 as amended.  Whenever the view is actually rebuilt (here: the sort
key changed; likewise when a refresh ran), every returned record's `is_new`
is recomputed as `now - birth_time < NEW_PROCESS_HIGHLIGHT_DURATION`
(`false` without a birth-time entry); only calls served from the memoized
view can return stale flags. -/
theorem is_new_recomputed_on_rebuild (cfg : Config) (env : OsEnv)
    (sort_by : String) (reverse : Bool) (vr : Option (Nat × Nat)) (q : String)
    (now : ℚ) (s : PMState)
    (h1 : now - s.last_full_update < s.update_interval)
    (h2 : now - s.last_partial_update < s.partial_interval)
    (hk : s.last_sort_key ≠ some sort_by)
    (p : ProcessInfo)
    (hp : p ∈ (get_processes cfg env sort_by reverse vr q now s).1) :
    p.is_new = is_new_flag cfg now s.process_birth_times p.pid := by
  have hd1 : (decide (now - s.last_full_update ≥ s.update_interval)) = false :=
    decide_eq_false (not_le.mpr h1)
  have hd2 : (decide (now - s.last_partial_update ≥ s.partial_interval)) = false :=
    decide_eq_false (not_le.mpr h2)
  have hres : (get_processes cfg env sort_by reverse vr q now s).1 =
      build_view cfg sort_by reverse q now s := by
    simp [get_processes, hd1, hd2, hk, update_visible_cached]
  rw [hres] at hp
  exact build_view_is_new cfg sort_by reverse q now s p hp

/-- Witness for the amended C3: re-querying `s3st` with a changed sort key
at `now = 5.05` yields a record whose flag equals the freshly recomputed
`is_new_flag` (which is now `false`). -/
theorem is_new_recomputed_on_rebuild_witness :
    (set_is_new config_actual (101/20) s3st.process_birth_times pStale).is_new =
      is_new_flag config_actual (101/20) s3st.process_birth_times
        (set_is_new config_actual (101/20) s3st.process_birth_times pStale).pid :=
  is_new_recomputed_on_rebuild config_actual env2 "memory" true none ""
    (101/20) s3st (by with_unfolding_all decide) (by with_unfolding_all decide)
    (by decide) _ (by with_unfolding_all decide)

/-- C4 counterexample.  With `include_children = true`, child 501 survives
the 3-second wait and its force-kill raises `AccessDenied`, yet
`kill_process` swallows the failure (`except ...: pass` at lines 426-427)
and reports `(True, None)`: the force-kill failure is hidden from the
caller. -/
theorem kill_tree_force_kill_failure_hidden :
    kill_process env_hidden true = (true, none) ∧
    env_hidden.alive = [501] ∧
    env_hidden.kill_res 501 = some PsErr.accessDenied := by
  decide

/-- C4 as amended.  Without children, a graceful wait that raises
`TimeoutExpired` escalates to a force-kill whose own outcome is what the
caller receives; with `include_children = true`, `wait_procs` never raises,
and once the per-target `NoSuchProcess`/`AccessDenied` failures are
swallowed the call returns `(True, None)` regardless of how many force-kills
failed. -/
theorem kill_escalation_and_tree_result (env : KillEnv)
    (hl : env.lookup_err = none) (hp : env.parent_term_err = none) :
    (env.solo_wait = some PsErr.timeoutExpired →
      kill_process env false =
        (match env.solo_kill with
         | none => (true, none)
         | some m => (false, some ("Failed to kill process: " ++ m)))) ∧
    (env.children_err = none →
      first_unswallowed env.child_term_err env.children = none →
      first_unswallowed env.kill_res env.alive = none →
      kill_process env true = (true, none)) := by
  constructor
  · intro hw
    simp only [kill_process, hl, hp, hw, kill_catch, Bool.false_eq_true,
      if_false, if_true]
  · intro hce hct hkr
    simp only [kill_process, hl, hce, hp, hct, hkr, if_true]

/-- Witness for the amended C4: on the single-process path a timeout
followed by a failing force-kill is reported as that force-kill's failure. -/
theorem kill_escalation_and_tree_result_witness :
    kill_process env_timeout false =
      (false, some ("Failed to kill process: " ++ "Access denied")) :=
  (kill_escalation_and_tree_result env_timeout rfl rfl).1 rfl

/-- C6 counterexample.  PID 1 was cached before the full refresh at
`now = 50` (so by the claim it should have no birth-time entry afterwards),
yet after the refresh it is cached and still carries its old birth time 10:
entries persist across refreshes for surviving PIDs, so "has a birth time
iff absent before the refresh" fails. -/
theorem birth_time_retained_for_surviving_pid :
    (alookup 1 s6st.processes_cache).isSome = true ∧
    (alookup 1 (full_update_optimized config_actual [eA] 50 s6st).processes_cache).isSome = true ∧
    alookup 1 (full_update_optimized config_actual [eA] 50 s6st).process_birth_times = some 10 := by
  with_unfolding_all decide

/-- C6 as amended.  After a full refresh: a PID absent from the new cache
has no birth-time entry; a surviving PID that was already cached keeps
exactly the entry it had before; and a PID that was absent from the cache
before the refresh is stamped with `birth_time = now`.  (A fresh stamp is
thus given iff the PID was absent before; merely *having* an entry is not
equivalent to having been absent.) -/
theorem full_update_birth_characterization (cfg : Config)
    (entries : List FullEntry) (now : ℚ) (s : PMState) (pid : Nat) :
    (alookup pid (full_update_optimized cfg entries now s).processes_cache = none →
      alookup pid (full_update_optimized cfg entries now s).process_birth_times = none) ∧
    ((alookup pid (full_update_optimized cfg entries now s).processes_cache).isSome = true →
      (alookup pid s.processes_cache).isSome = true →
      alookup pid (full_update_optimized cfg entries now s).process_birth_times =
        alookup pid s.process_birth_times) ∧
    ((alookup pid (full_update_optimized cfg entries now s).processes_cache).isSome = true →
      alookup pid s.processes_cache = none →
      alookup pid (full_update_optimized cfg entries now s).process_birth_times =
        some now) := by
  simp only [full_update_optimized]
  refine ⟨?_, ?_, ?_⟩
  · intro hnone
    rw [alookup_filter_keys]
    simp [hnone]
  · intro hsome hold
    rw [alookup_filter_keys, if_pos hsome]
    exact full_fold_birth_old cfg s.cpu_count now s.processes_cache entries pid hold _
  · intro hsome hold
    rw [alookup_filter_keys, if_pos hsome]
    exact full_fold_birth_new cfg s.cpu_count now s.processes_cache entries pid hold
      _ (by simp [alookup]) hsome

/-- Witness for the amended C6: a first full refresh on a fresh manager
stamps the newly seen PID 1 with the refresh time. -/
theorem full_update_birth_characterization_witness :
    alookup 1 (full_update_optimized config_actual [eA] 50 (pm_init 1)).process_birth_times =
      some 50 :=
  (full_update_birth_characterization config_actual [eA] 50 (pm_init 1) 1).2.2
    (by decide) rfl

/-- C9.  A `get_processes` call whose sort key is unknown (not in
`sort_key_map`) and which rebuilds the view returns the cache-iteration-order
list — search-filtered and `is_new`-refreshed but NOT sorted — and memoizes
that unsorted list as the current view, recording the unknown key as the
last sort key. -/
theorem unknown_sort_key_unsorted_memoized (cfg : Config) (env : OsEnv)
    (sort_by : String) (reverse : Bool) (q : String) (now : ℚ) (s : PMState)
    (h1 : now - s.last_full_update < s.update_interval)
    (h2 : now - s.last_partial_update < s.partial_interval)
    (hk : s.last_sort_key ≠ some sort_by)
    (hunk : known_sort_key sort_by = false) :
    get_processes cfg env sort_by reverse none q now s =
      (build_view cfg sort_by reverse q now s,
       { s with
         cached_sorted_list := build_view cfg sort_by reverse q now s
         last_sort_key := some sort_by
         last_sort_reverse := reverse }) ∧
    build_view cfg sort_by reverse q now s =
      (if py_strip q ≠ "" then
        (s.processes_cache.map (fun kv => kv.2)).filter (search_pred q)
       else s.processes_cache.map (fun kv => kv.2)).map
        (set_is_new cfg now s.process_birth_times) := by
  have hd1 : (decide (now - s.last_full_update ≥ s.update_interval)) = false :=
    decide_eq_false (not_le.mpr h1)
  have hd2 : (decide (now - s.last_partial_update ≥ s.partial_interval)) = false :=
    decide_eq_false (not_le.mpr h2)
  constructor
  · simp [get_processes, hd1, hd2, hk, update_visible]
  · unfold build_view
    rw [hunk]
    simp

/-- Witness for C9: querying with the unknown key `zzz` memoizes the
unsorted view and records `zzz` as the last sort key. -/
theorem unknown_sort_key_unsorted_memoized_witness :
    get_processes config_actual env2 "zzz" true none "" (1/10) s2st =
      (build_view config_actual "zzz" true "" (1/10) s2st,
       { s2st with
         cached_sorted_list := build_view config_actual "zzz" true "" (1/10) s2st
         last_sort_key := some "zzz"
         last_sort_reverse := true }) :=
  (unknown_sort_key_unsorted_memoized config_actual env2 "zzz" true "" (1/10)
    s2st (by with_unfolding_all decide) (by with_unfolding_all decide)
    (by decide) (by decide)).1
